import Mathlib

/-!
Verification of the gesture/state classification layer of the advanced-cv
repository: finger-state classification (main.py countFingers,
VirtualMouse.py countFingers, VirtualPainter.py fingersUpFromLm), the
gesture mode resolver and paint-stroke accumulator (VirtualPainter.py
run_virtual_painter), header button selection, and the rep-counting state
machine with angle normalization (PoseModule.py PoseDetector.findAngle).

Landmarks are triples (id, x, y) of integers, as produced by
findPosition (cx = int(lm.x * w), cy = int(lm.y * h)).  Handedness is the
optional label string read from results.multi_handedness; the try/except
that yields None on any failure is modelled by an Option String input.
Angles and the curl counter are modelled over the rationals.
-/

/-- The handedness label the source compares against. -/
def rightLabel : String := "Right"

/-- Python dict comprehension {id: (x, y) for id, x, y in lmList}: the last
occurrence of an id wins.  Returns none when the id is absent. -/
def lmLookup (l : List (ℤ × ℤ × ℤ)) (i : ℤ) : Option (ℤ × ℤ) :=
  l.foldl (fun acc t => if t.1 = i then some (t.2.1, t.2.2) else acc) none

/-- countFingers from VirtualMouse.py (lines 17-71).  Empty landmark list
returns (0, []).  Thumb (guarded on ids 4 and 3): for label Right, up iff
tip.x < joint.x, otherwise up iff tip.x > joint.x; missing ids give 0.
Fingers 1-4 (guarded on tip and pip = tip - 2): up iff tip.y < pip.y. -/
def countFingersMouse (l : List (ℤ × ℤ × ℤ)) (handType : Option String) :
    ℤ × List ℤ :=
  if l = [] then (0, []) else
    let thumb : ℤ :=
      match lmLookup l 4, lmLookup l 3 with
      | some p4, some p3 =>
          if handType = some rightLabel then (if p4.1 < p3.1 then 1 else 0)
          else (if p4.1 > p3.1 then 1 else 0)
      | _, _ => 0
    let fing : ℤ → ℤ := fun tipId =>
      match lmLookup l tipId, lmLookup l (tipId - 2) with
      | some pt, some pp => if pt.2 < pp.2 then 1 else 0
      | _, _ => 0
    let fingers : List ℤ := [thumb, fing 8, fing 12, fing 16, fing 20]
    (fingers.sum, fingers)

/-- fingersUpFromLm from VirtualPainter.py (lines 20-55).  Same rules as
countFingersMouse but the empty landmark list returns [0,0,0,0,0] and no
total is computed (the source initializes fingers = [0,0,0,0,0] and
assigns positions 0-4 under the same guards). -/
def fingersUpFromLm (l : List (ℤ × ℤ × ℤ)) (handType : Option String) :
    List ℤ :=
  if l = [] then [0, 0, 0, 0, 0] else
    let thumb : ℤ :=
      match lmLookup l 4, lmLookup l 3 with
      | some p4, some p3 =>
          if handType = some rightLabel then (if p4.1 < p3.1 then 1 else 0)
          else (if p4.1 > p3.1 then 1 else 0)
      | _, _ => 0
    let fing : ℤ → ℤ := fun tipId =>
      match lmLookup l tipId, lmLookup l (tipId - 2) with
      | some pt, some pp => if pt.2 < pp.2 then 1 else 0
      | _, _ => 0
    [thumb, fing 8, fing 12, fing 16, fing 20]

/-- countFingers from main.py (lines 14-66).  The landmark accesses
lm[4], lm[3] and lm[tipId], lm[tipId-2] are UNGUARDED dictionary
subscripts: on a nonempty landmark list a missing required id raises a
KeyError, modelled here as the result none.  The empty list returns
some (0, []). -/
def countFingersMain (l : List (ℤ × ℤ × ℤ)) (handType : Option String) :
    Option (ℤ × List ℤ) :=
  if l = [] then some (0, []) else
    (lmLookup l 4).bind fun p4 =>
    (lmLookup l 3).bind fun p3 =>
    (lmLookup l 8).bind fun t1 =>
    (lmLookup l 6).bind fun q1 =>
    (lmLookup l 12).bind fun t2 =>
    (lmLookup l 10).bind fun q2 =>
    (lmLookup l 16).bind fun t3 =>
    (lmLookup l 14).bind fun q3 =>
    (lmLookup l 20).bind fun t4 =>
    (lmLookup l 18).bind fun q4 =>
    let thumb : ℤ :=
      if handType = some rightLabel then (if p4.1 < p3.1 then 1 else 0)
      else (if p4.1 > p3.1 then 1 else 0)
    let f1 : ℤ := if t1.2 < q1.2 then 1 else 0
    let f2 : ℤ := if t2.2 < q2.2 then 1 else 0
    let f3 : ℤ := if t3.2 < q3.2 then 1 else 0
    let f4 : ℤ := if t4.2 < q4.2 then 1 else 0
    some (thumb + f1 + f2 + f3 + f4, [thumb, f1, f2, f3, f4])

/-- Interaction mode derived from a finger vector. -/
inductive Mode : Type
  | Navigate : Mode
  | Draw : Mode
  | Idle : Mode
deriving DecidableEq

/-- The mode chain of run_virtual_painter (lines 111, 128, 142):
fingers[1] == 1 and fingers[2] == 1 selects Navigate (selection mode),
elif fingers[1] == 1 and fingers[2] == 0 selects Draw, else Idle. -/
def resolveMode (fingers : List ℤ) : Mode :=
  if fingers.getD 1 0 = 1 ∧ fingers.getD 2 0 = 1 then Mode.Navigate
  else if fingers.getD 1 0 = 1 ∧ fingers.getD 2 0 = 0 then Mode.Draw
  else Mode.Idle

/-- One hand-present frame of the paint-stroke accumulator
(run_virtual_painter lines 111-143).  State is the cursor (xp, yp) with
sentinel (0, 0) for unset.  Output is the updated state and the list of
cv2.line calls ((x1, y1), (x2, y2)) issued on the canvas this frame.
Navigate and the else branch reset the cursor to (0, 0) and draw nothing;
Draw first snaps an unset cursor to (ix, iy), then draws the segment from
the cursor to (ix, iy) and stores (ix, iy). -/
def painterStep (s : ℤ × ℤ) (fingers : List ℤ) (ix iy : ℤ) :
    (ℤ × ℤ) × List ((ℤ × ℤ) × (ℤ × ℤ)) :=
  if fingers.getD 1 0 = 1 ∧ fingers.getD 2 0 = 1 then ((0, 0), [])
  else if fingers.getD 1 0 = 1 ∧ fingers.getD 2 0 = 0 then
    let p := if s.1 = 0 ∧ s.2 = 0 then (ix, iy) else s
    ((ix, iy), [(p, (ix, iy))])
  else ((0, 0), [])

/-- One frame of the painter loop: when no hand is detected (lmList is
empty, the `if lmList:` test on line 103 fails) the whole block is
skipped, so the cursor state is left unchanged and nothing is drawn. -/
def painterFrame (s : ℤ × ℤ) (fr : Option (List ℤ × ℤ × ℤ)) :
    (ℤ × ℤ) × List ((ℤ × ℤ) × (ℤ × ℤ)) :=
  match fr with
  | none => (s, [])
  | some (fingers, ix, iy) => painterStep s fingers ix iy

/-- Run the painter over a list of frames, collecting all line calls. -/
def painterRun (s : ℤ × ℤ) (frames : List (Option (List ℤ × ℤ × ℤ))) :
    (ℤ × ℤ) × List ((ℤ × ℤ) × (ℤ × ℤ)) :=
  match frames with
  | [] => (s, [])
  | fr :: rest =>
    let out := painterFrame s fr
    let outRest := painterRun out.1 rest
    (outRest.1, out.2 ++ outRest.2)

/-- The set of plane points covered by the closed straight segment between
two integer pixel positions (the ideal geometry of one cv2.line call). -/
def segPts (a b : ℤ × ℤ) : Set (ℚ × ℚ) :=
  {p | ∃ t : ℚ, 0 ≤ t ∧ t ≤ 1 ∧
      p.1 = (1 - t) * (a.1 : ℚ) + t * (b.1 : ℚ) ∧
      p.2 = (1 - t) * (a.2 : ℚ) + t * (b.2 : ℚ)}

/-- The ink deposited on the canvas by a list of line calls: the union of
the segments they cover. -/
def canvasOf (segs : List ((ℤ × ℤ) × (ℤ × ℤ))) : Set (ℚ × ℚ) :=
  {p | ∃ s ∈ segs, p ∈ segPts s.1 s.2}

/-- Header button selection of run_virtual_painter (lines 92-93 and
116-125): btn_width = w // num_buttons, and inside the header band
(iy < 125 = header_height) the button index is ix // btn_width, accepted
only when 0 <= btn_idx < num_buttons; otherwise no selection happens.
Python floor division is Int.fdiv. -/
def headerSelect (w numButtons ix iy : ℤ) : Option ℤ :=
  let bw := Int.fdiv w numButtons
  if iy < 125 then
    let idx := Int.fdiv ix bw
    if 0 ≤ idx ∧ idx < numButtons then some idx else none
  else none

/-- Angle normalization of PoseDetector.findAngle (lines 59-63): the raw
degree difference of the two atan2 values is shifted by +360 when
negative, then reflected to 360 - angle when above 180. -/
def normalizeAngle (raw : ℚ) : ℚ :=
  let a := if raw < 0 then raw + 360 else raw
  if a > 180 then 360 - a else a

/-- Rep-counter state of PoseDetector: dir is the direction flag
(0 = Down, 1 = Up), curl_count the half-step repetition counter.
Both start at 0 in __init__. -/
structure RepState : Type where
  dir : ℤ
  curl_count : ℚ
deriving DecidableEq

/-- One counting step of PoseDetector.findAngle (lines 66-73) on an
already-normalized angle: angle > 160 resets dir to 0 (Down); then
angle < 30 with dir = 0 sets dir to 1 (Up) and adds 0.5 to curl_count. -/
def repStep (s : RepState) (angle : ℚ) : RepState :=
  let s1 := if angle > 160 then { s with dir := 0 } else s
  if angle < 30 ∧ s1.dir = 0 then
    { dir := 1, curl_count := s1.curl_count + 1 / 2 }
  else s1

/-- Per-step monotonicity of the curl counter. -/
lemma repStep_count_le (s : RepState) (a : ℚ) :
    s.curl_count ≤ (repStep s a).curl_count := by
  simp only [repStep]
  split_ifs <;> (try dsimp only) <;> linarith

/-- Monotonicity of the curl counter over any angle sequence. -/
lemma foldl_repStep_count_le (angles : List ℚ) (s : RepState) :
    s.curl_count ≤ (angles.foldl repStep s).curl_count := by
  induction angles generalizing s with
  | nil => exact le_refl _
  | cons a rest ih => exact le_trans (repStep_count_le s a) (ih (repStep s a))

/-- Characterization of one counting step: the counter gains exactly 0.5
iff the angle is below 30 while the direction flag is Down, stays put
otherwise, and any angle above 160 forces the flag to Down. -/
lemma repStep_count_iff (s : RepState) (a : ℚ) :
    ((repStep s a).curl_count = s.curl_count + 1 / 2 ↔ a < 30 ∧ s.dir = 0) ∧
    (¬(a < 30 ∧ s.dir = 0) → (repStep s a).curl_count = s.curl_count) ∧
    (a > 160 → (repStep s a).dir = 0) := by
  simp only [repStep]
  split_ifs with h1 h2 h3 <;> (try dsimp only at *) <;>
    constructor <;>
    try constructor
  all_goals
    first
      | (intro h; linarith)
      | (constructor
         · intro h; exfalso; linarith
         · rintro ⟨ha, hd⟩; first | linarith | simp_all)
      | (constructor
         · intro h; exact ⟨by linarith, by simp_all⟩
         · intro h; rfl)
      | (intro h; rfl)
      | (intro h; exfalso; exact h2 ⟨by linarith, rfl⟩)
      | simp_all
      | (intro h; simp_all)

/-- C2: for every sequence of angle updates the curl count is monotone
non-decreasing; one step adds exactly 0.5 iff angle < 30 while the
direction flag is Down (0) and otherwise leaves the count unchanged;
angle > 160 resets the flag to Down regardless of prior state; and the
sequence [170, 90, 20, 90, 170] from count 0, direction Down produces
counts [0, 0, 0, 0.5, 0.5, 0.5] — exactly one increment, at the 20
sample, final count 0.5. -/
theorem C2_rep_counter_invariants :
    (∀ (angles : List ℚ) (s : RepState),
      s.curl_count ≤ (angles.foldl repStep s).curl_count) ∧
    (∀ (s : RepState) (a : ℚ),
      ((repStep s a).curl_count = s.curl_count + 1 / 2 ↔ a < 30 ∧ s.dir = 0) ∧
      (¬(a < 30 ∧ s.dir = 0) → (repStep s a).curl_count = s.curl_count) ∧
      (a > 160 → (repStep s a).dir = 0)) ∧
    (List.scanl repStep ⟨0, 0⟩ [170, 90, 20, 90, 170]).map RepState.curl_count
      = [0, 0, 0, 1 / 2, 1 / 2, 1 / 2] :=
  ⟨fun angles s => foldl_repStep_count_le angles s,
   fun s a => repStep_count_iff s a,
   by norm_num [List.scanl, repStep]⟩

/-- Witness for C2 at concrete inputs. -/
theorem C2_rep_counter_invariants_witness :
    (repStep ⟨0, 0⟩ 20).curl_count = (0 : ℚ) + 1 / 2 ∧
    (repStep ⟨1, 1 / 2⟩ 170).dir = 0 :=
  ⟨(C2_rep_counter_invariants.2.1 ⟨0, 0⟩ 20).1.mpr ⟨by norm_num, rfl⟩,
   (C2_rep_counter_invariants.2.1 ⟨1, 1 / 2⟩ 170).2.2 (by norm_num)⟩

/-- C8: the normalization applied to any raw atan2 degree difference in
(-360, 360) lands in [0, 180]; a raw difference of -190 normalizes to 170
and a raw difference of 200 normalizes to 160. -/
theorem C8_angle_normalization :
    (∀ raw : ℚ, -360 < raw → raw < 360 →
      0 ≤ normalizeAngle raw ∧ normalizeAngle raw ≤ 180) ∧
    normalizeAngle (-190) = 170 ∧ normalizeAngle 200 = 160 := by
  refine ⟨?_, by norm_num [normalizeAngle], by norm_num [normalizeAngle]⟩
  intro raw h1 h2
  simp only [normalizeAngle]
  split_ifs <;> constructor <;> linarith

/-- Witness for C8 at a concrete raw angle. -/
theorem C8_angle_normalization_witness :
    0 ≤ normalizeAngle 200 ∧ normalizeAngle 200 ≤ 180 :=
  C8_angle_normalization.1 200 (by norm_num) (by norm_num)

/-- C5: mode resolution on bit vectors is first-match-wins: Navigate iff
index = 1 and middle = 1 (thumb, ring, pinky irrelevant), Draw iff
index = 1 and middle = 0, and every other vector resolves to Idle. -/
theorem C5_mode_precedence (t i m r p : ℤ)
    (ht : t = 0 ∨ t = 1) (hi : i = 0 ∨ i = 1) (hm : m = 0 ∨ m = 1)
    (hr : r = 0 ∨ r = 1) (hp : p = 0 ∨ p = 1) :
    (resolveMode [t, i, m, r, p] = Mode.Navigate ↔ i = 1 ∧ m = 1) ∧
    (resolveMode [t, i, m, r, p] = Mode.Draw ↔ i = 1 ∧ m = 0) ∧
    (resolveMode [t, i, m, r, p] = Mode.Idle ↔ i = 0) := by
  rcases hi with rfl | rfl <;> rcases hm with rfl | rfl <;>
    simp [resolveMode, List.getD]

/-- Witness for C5 at concrete finger vectors. -/
theorem C5_mode_precedence_witness :
    resolveMode [0, 1, 1, 0, 0] = Mode.Navigate ∧
    resolveMode [0, 1, 0, 0, 0] = Mode.Draw ∧
    resolveMode [0, 0, 0, 0, 0] = Mode.Idle :=
  ⟨(C5_mode_precedence 0 1 1 0 0 (Or.inl rfl) (Or.inr rfl) (Or.inr rfl)
      (Or.inl rfl) (Or.inl rfl)).1.mpr ⟨rfl, rfl⟩,
   (C5_mode_precedence 0 1 0 0 0 (Or.inl rfl) (Or.inr rfl) (Or.inl rfl)
      (Or.inl rfl) (Or.inl rfl)).2.1.mpr ⟨rfl, rfl⟩,
   (C5_mode_precedence 0 0 0 0 0 (Or.inl rfl) (Or.inl rfl) (Or.inl rfl)
      (Or.inl rfl) (Or.inl rfl)).2.2.mpr rfl⟩

/-- C9: inside the header band with the computed button index in range,
the selection is exactly floor(ix / btnWidth); every emitted index is in
[0, numButtons); outside the band, or with the index out of range
(cursor outside all button regions), no selection is emitted and the
function still returns. -/
theorem C9_header_selection (w numButtons ix iy : ℤ) :
    (iy < 125 → 0 ≤ Int.fdiv ix (Int.fdiv w numButtons) →
      Int.fdiv ix (Int.fdiv w numButtons) < numButtons →
      headerSelect w numButtons ix iy
        = some (Int.fdiv ix (Int.fdiv w numButtons))) ∧
    (∀ i : ℤ, headerSelect w numButtons ix iy = some i →
      0 ≤ i ∧ i < numButtons ∧ i = Int.fdiv ix (Int.fdiv w numButtons)
        ∧ iy < 125) ∧
    (125 ≤ iy → headerSelect w numButtons ix iy = none) ∧
    (¬(0 ≤ Int.fdiv ix (Int.fdiv w numButtons)
        ∧ Int.fdiv ix (Int.fdiv w numButtons) < numButtons) →
      headerSelect w numButtons ix iy = none) := by
  refine ⟨?_, ?_, ?_, ?_⟩
  · intro h1 h2 h3
    simp [headerSelect, h1, h2, h3]
  · intro i hi
    simp only [headerSelect] at hi
    by_cases h1 : iy < 125
    · rw [if_pos h1] at hi
      by_cases h2 : 0 ≤ Int.fdiv ix (Int.fdiv w numButtons)
          ∧ Int.fdiv ix (Int.fdiv w numButtons) < numButtons
      · rw [if_pos h2, Option.some_inj] at hi
        exact ⟨hi ▸ h2.1, hi ▸ h2.2, hi.symm, h1⟩
      · rw [if_neg h2] at hi
        exact absurd hi (by simp)
    · rw [if_neg h1] at hi
      exact absurd hi (by simp)
  · intro h1
    simp [headerSelect, not_lt.mpr h1]
  · intro h
    simp only [headerSelect]
    split_ifs <;> simp_all

/-- Witness for C9 at concrete cursor positions. -/
theorem C9_header_selection_witness :
    headerSelect 1280 4 400 50 = some 1 ∧ headerSelect 1280 4 400 300 = none :=
  ⟨by
    have h1 : Int.fdiv 400 (Int.fdiv 1280 4) = 1 := by decide
    have h := (C9_header_selection 1280 4 400 50).1 (by norm_num)
      (by decide) (by decide)
    rw [h1] at h
    exact h,
   (C9_header_selection 1280 4 400 300).2.2.1 (by norm_num)⟩

/-- The canvas after the two-frame scenario of C1 is exactly the segment
between (10, 10) and (20, 20): the degenerate first call covers only the
point (10, 10), which lies on that segment. -/
lemma canvasOf_two_frames :
    canvasOf [((10, 10), (10, 10)), ((10, 10), (20, 20))]
      = segPts (10, 10) (20, 20) := by
  ext p
  simp only [canvasOf, segPts, Set.mem_setOf_eq, List.mem_cons,
    List.mem_singleton, List.not_mem_nil, or_false]
  constructor
  · rintro ⟨s, hs, t, ht0, ht1, hx, hy⟩
    rcases hs with rfl | rfl
    · refine ⟨0, le_refl 0, by norm_num, ?_, ?_⟩
      · rw [hx]; push_cast; ring
      · rw [hy]; push_cast; ring
    · exact ⟨t, ht0, ht1, hx, hy⟩
  · rintro ⟨t, ht0, ht1, hx, hy⟩
    exact ⟨((10, 10), (20, 20)), Or.inr rfl, t, ht0, ht1, hx, hy⟩

/-- C1: from an unset accumulator, the frames Draw(10,10) then Draw(20,20)
leave the cursor at (20, 20); the first frame records the cursor and its
only canvas call is the degenerate point (10,10)-(10,10), so it draws no
stroke; the only nondegenerate segment over both frames is
(10,10)-(20,20); no call touches the sentinel origin (0, 0); and the ink
on the canvas is exactly the segment from (10, 10) to (20, 20). -/
theorem C1_two_draw_frames_single_segment :
    painterRun (0, 0)
        [some ([0, 1, 0, 0, 0], 10, 10), some ([0, 1, 0, 0, 0], 20, 20)]
      = ((20, 20), [((10, 10), (10, 10)), ((10, 10), (20, 20))]) ∧
    painterFrame (0, 0) (some ([0, 1, 0, 0, 0], 10, 10))
      = ((10, 10), [((10, 10), (10, 10))]) ∧
    (painterRun (0, 0)
        [some ([0, 1, 0, 0, 0], 10, 10), some ([0, 1, 0, 0, 0], 20, 20)]).2.filter
      (fun sg => decide (sg.1 ≠ sg.2)) = [((10, 10), (20, 20))] ∧
    (painterRun (0, 0)
        [some ([0, 1, 0, 0, 0], 10, 10), some ([0, 1, 0, 0, 0], 20, 20)]).2.filter
      (fun sg => decide (sg.1 = (0, 0) ∨ sg.2 = (0, 0))) = [] ∧
    canvasOf (painterRun (0, 0)
        [some ([0, 1, 0, 0, 0], 10, 10), some ([0, 1, 0, 0, 0], 20, 20)]).2
      = segPts (10, 10) (20, 20) := by
  refine ⟨by decide, by decide, by decide, by decide, ?_⟩
  have hrun : (painterRun (0, 0)
      [some ([0, 1, 0, 0, 0], 10, 10), some ([0, 1, 0, 0, 0], 20, 20)]).2
      = [((10, 10), (10, 10)), ((10, 10), (20, 20))] := by decide
  rw [hrun]
  exact canvasOf_two_frames

/-- C3 counterexample: a frame with no detected hand does NOT reset the
cursor state to the unset sentinel (0, 0) — the source skips the whole
block when lmList is empty, leaving (xp, yp) unchanged at (10, 10). -/
theorem C3_empty_frame_counterexample :
    painterFrame (10, 10) none = ((10, 10), []) ∧
    ¬ (painterFrame (10, 10) none).1 = (0, 0) := by
  exact ⟨rfl, by decide⟩

/-- A hand-present frame whose mode does not resolve to Draw resets the
cursor to the sentinel and issues no canvas call. -/
lemma painterStep_non_draw (s : ℤ × ℤ) (f : List ℤ) (ix iy : ℤ)
    (h : resolveMode f ≠ Mode.Draw) : painterStep s f ix iy = ((0, 0), []) := by
  unfold painterStep
  by_cases hc1 : f.getD 1 0 = 1 ∧ f.getD 2 0 = 1
  · rw [if_pos hc1]
  · by_cases hc2 : f.getD 1 0 = 1 ∧ f.getD 2 0 = 0
    · exact absurd (by unfold resolveMode; rw [if_neg hc1, if_pos hc2]) h
    · rw [if_neg hc1, if_neg hc2]

/-- A Draw frame entered with the cursor at the sentinel draws only a
degenerate point: the single canvas call it can issue has both endpoints
equal, so no nondegenerate segment survives filtering. -/
lemma painterStep_sentinel_no_stroke (f : List ℤ) (jx jy : ℤ) :
    (painterStep (0, 0) f jx jy).2.filter
      (fun sg => decide (sg.1 ≠ sg.2)) = [] := by
  unfold painterStep
  by_cases hc1 : f.getD 1 0 = 1 ∧ f.getD 2 0 = 1
  · rw [if_pos hc1]
    rfl
  · rw [if_neg hc1]
    by_cases hc2 : f.getD 1 0 = 1 ∧ f.getD 2 0 = 0
    · rw [if_pos hc2]
      simp
    · rw [if_neg hc2]
      rfl

/-- C3 amended: a hand-present frame whose resolved mode is not Draw
resets the cursor to (0, 0) and leaves the canvas untouched, and after it
the next Draw frame draws only a degenerate point (pen-lift semantics);
but a frame with no detected hand leaves the cursor state UNCHANGED
(it is not reset) while still leaving the canvas untouched. -/
theorem C3_non_draw_resets_cursor :
    (∀ (s : ℤ × ℤ) (f : List ℤ) (ix iy : ℤ),
      resolveMode f ≠ Mode.Draw → painterStep s f ix iy = ((0, 0), [])) ∧
    (∀ s : ℤ × ℤ, painterFrame s none = (s, [])) ∧
    (∀ (s : ℤ × ℤ) (f f2 : List ℤ) (ix iy jx jy : ℤ),
      resolveMode f ≠ Mode.Draw →
      (painterRun s [some (f, ix, iy), some (f2, jx, jy)]).2.filter
        (fun sg => decide (sg.1 ≠ sg.2)) = []) := by
  refine ⟨painterStep_non_draw, fun s => rfl, ?_⟩
  intro s f f2 ix iy jx jy h
  simp only [painterRun, painterFrame]
  rw [painterStep_non_draw s f ix iy h]
  simp only [List.nil_append, List.append_nil]
  exact painterStep_sentinel_no_stroke f2 jx jy

/-- Witness for C3 amended at concrete frames. -/
theorem C3_non_draw_resets_cursor_witness :
    painterStep (10, 10) [0, 0, 0, 0, 0] 5 5 = ((0, 0), []) ∧
    painterFrame (7, 8) none = ((7, 8), []) ∧
    (painterRun (10, 10)
        [some ([0, 0, 0, 0, 0], 5, 5), some ([0, 1, 0, 0, 0], 20, 20)]).2.filter
      (fun sg => decide (sg.1 ≠ sg.2)) = [] :=
  ⟨C3_non_draw_resets_cursor.1 (10, 10) [0, 0, 0, 0, 0] 5 5 (by decide),
   C3_non_draw_resets_cursor.2.1 (7, 8),
   C3_non_draw_resets_cursor.2.2 (10, 10) [0, 0, 0, 0, 0] [0, 1, 0, 0, 0]
     5 5 20 20 (by decide)⟩

/-- A successful lookup forces the landmark list to be nonempty. -/
lemma lmLookup_ne_nil {l : List (ℤ × ℤ × ℤ)} {i : ℤ} {p : ℤ × ℤ}
    (h : lmLookup l i = some p) : l ≠ [] := by
  intro he
  rw [he] at h
  simp [lmLookup] at h

/-- C6: with ids 4 and 3 present, the thumb entry is 1 iff tip.x < joint.x
under the Right label, and 1 iff tip.x > joint.x under any other
handedness (Left label or none), in both VirtualMouse countFingers and
VirtualPainter fingersUpFromLm. -/
theorem C6_thumb_rule (l : List (ℤ × ℤ × ℤ)) (x4 y4 x3 y3 : ℤ)
    (h4 : lmLookup l 4 = some (x4, y4)) (h3 : lmLookup l 3 = some (x3, y3)) :
    (((countFingersMouse l (some rightLabel)).2.getD 0 0 = 1 ↔ x4 < x3) ∧
     ((fingersUpFromLm l (some rightLabel)).getD 0 0 = 1 ↔ x4 < x3)) ∧
    (∀ h : Option String, h ≠ some rightLabel →
      (((countFingersMouse l h).2.getD 0 0 = 1 ↔ x3 < x4) ∧
       ((fingersUpFromLm l h).getD 0 0 = 1 ↔ x3 < x4))) := by
  have hne : l ≠ [] := lmLookup_ne_nil h4
  refine ⟨⟨?_, ?_⟩, fun h hh => ⟨?_, ?_⟩⟩
  · simp [countFingersMouse, hne, h4, h3]
    try (split_ifs with hx <;> simp [hx])
  · simp [fingersUpFromLm, hne, h4, h3]
    try (split_ifs with hx <;> simp [hx])
  · simp [countFingersMouse, hne, h4, h3, hh]
    try (split_ifs with hx <;> simp [hx])
  · simp [fingersUpFromLm, hne, h4, h3, hh]
    try (split_ifs with hx <;> simp [hx])

/-- Witness for C6 at a concrete landmark list. -/
theorem C6_thumb_rule_witness :
    (countFingersMouse [(4, 1, 0), (3, 2, 0)] (some rightLabel)).2.getD 0 0 = 1 :=
  ((C6_thumb_rule [(4, 1, 0), (3, 2, 0)] 1 0 2 0 (by decide) (by decide)).1.1).mpr
    (by norm_num)

/-- C7: with the tip/pip pair present, each of fingers 1-4 is classified
up (entry 1) iff tip.y < pip.y, and is 0 on the boundary tip.y = pip.y,
in both VirtualMouse countFingers and VirtualPainter fingersUpFromLm. -/
theorem C7_finger_rule (l : List (ℤ × ℤ × ℤ)) (h : Option String) :
    (∀ xt yt xq yq : ℤ,
      lmLookup l 8 = some (xt, yt) → lmLookup l 6 = some (xq, yq) →
      (((countFingersMouse l h).2.getD 1 0 = 1 ↔ yt < yq) ∧
       ((fingersUpFromLm l h).getD 1 0 = 1 ↔ yt < yq)) ∧
      (yt = yq →
        (countFingersMouse l h).2.getD 1 0 = 0 ∧
        (fingersUpFromLm l h).getD 1 0 = 0)) ∧
    (∀ xt yt xq yq : ℤ,
      lmLookup l 12 = some (xt, yt) → lmLookup l 10 = some (xq, yq) →
      (((countFingersMouse l h).2.getD 2 0 = 1 ↔ yt < yq) ∧
       ((fingersUpFromLm l h).getD 2 0 = 1 ↔ yt < yq)) ∧
      (yt = yq →
        (countFingersMouse l h).2.getD 2 0 = 0 ∧
        (fingersUpFromLm l h).getD 2 0 = 0)) ∧
    (∀ xt yt xq yq : ℤ,
      lmLookup l 16 = some (xt, yt) → lmLookup l 14 = some (xq, yq) →
      (((countFingersMouse l h).2.getD 3 0 = 1 ↔ yt < yq) ∧
       ((fingersUpFromLm l h).getD 3 0 = 1 ↔ yt < yq)) ∧
      (yt = yq →
        (countFingersMouse l h).2.getD 3 0 = 0 ∧
        (fingersUpFromLm l h).getD 3 0 = 0)) ∧
    (∀ xt yt xq yq : ℤ,
      lmLookup l 20 = some (xt, yt) → lmLookup l 18 = some (xq, yq) →
      (((countFingersMouse l h).2.getD 4 0 = 1 ↔ yt < yq) ∧
       ((fingersUpFromLm l h).getD 4 0 = 1 ↔ yt < yq)) ∧
      (yt = yq →
        (countFingersMouse l h).2.getD 4 0 = 0 ∧
        (fingersUpFromLm l h).getD 4 0 = 0)) := by
  refine ⟨?_, ?_, ?_, ?_⟩ <;>
  · intro xt yt xq yq ht hq
    have hne : l ≠ [] := lmLookup_ne_nil ht
    refine ⟨⟨?_, ?_⟩, fun hb => ⟨?_, ?_⟩⟩
    · simp [countFingersMouse, hne, ht, hq]
      try (split_ifs with hx <;> simp_all)
    · simp [fingersUpFromLm, hne, ht, hq]
      try (split_ifs with hx <;> simp_all)
    · simp [countFingersMouse, hne, ht, hq, hb]
      try (split_ifs with hx <;> simp_all)
    · simp [fingersUpFromLm, hne, ht, hq, hb]
      try (split_ifs with hx <;> simp_all)

/-- Witness for C7 at a concrete landmark list. -/
theorem C7_finger_rule_witness :
    (countFingersMouse [(8, 0, 1), (6, 0, 2)] none).2.getD 1 0 = 1 :=
  ((C7_finger_rule [(8, 0, 1), (6, 0, 2)] none).1 0 1 0 2
    (by decide) (by decide)).1.1.mpr (by norm_num)

/-- C4 counterexample: main.py countFingers fails on a nonempty landmark
list that is missing required ids — lm[4] is an unguarded dict access, so
the list [(0, 5, 5)] raises a KeyError (result none) instead of
returning a finger vector. -/
theorem C4_missing_id_counterexample :
    countFingersMain [((0 : ℤ), 5, 5)] none = none ∧
    ([((0 : ℤ), 5, 5)] : List (ℤ × ℤ × ℤ)) ≠ [] := by
  exact ⟨by decide, by decide⟩

/-- C4 amended: in VirtualMouse countFingers and VirtualPainter
fingersUpFromLm a missing required id makes the affected finger entry 0
and a 5-entry vector is still returned (no error); main.py countFingers
degrades gracefully only on the empty list — on a nonempty list with a
required id absent (id 4 here) it raises instead of returning. -/
theorem C4_missing_id_defaults (l : List (ℤ × ℤ × ℤ)) (h : Option String) :
    (fingersUpFromLm l h).length = 5 ∧
    (l ≠ [] → (countFingersMouse l h).2.length = 5) ∧
    ((lmLookup l 4 = none ∨ lmLookup l 3 = none) →
      (countFingersMouse l h).2.getD 0 0 = 0 ∧
      (fingersUpFromLm l h).getD 0 0 = 0) ∧
    ((lmLookup l 8 = none ∨ lmLookup l 6 = none) →
      (countFingersMouse l h).2.getD 1 0 = 0 ∧
      (fingersUpFromLm l h).getD 1 0 = 0) ∧
    ((lmLookup l 12 = none ∨ lmLookup l 10 = none) →
      (countFingersMouse l h).2.getD 2 0 = 0 ∧
      (fingersUpFromLm l h).getD 2 0 = 0) ∧
    ((lmLookup l 16 = none ∨ lmLookup l 14 = none) →
      (countFingersMouse l h).2.getD 3 0 = 0 ∧
      (fingersUpFromLm l h).getD 3 0 = 0) ∧
    ((lmLookup l 20 = none ∨ lmLookup l 18 = none) →
      (countFingersMouse l h).2.getD 4 0 = 0 ∧
      (fingersUpFromLm l h).getD 4 0 = 0) ∧
    (l ≠ [] → lmLookup l 4 = none → countFingersMain l h = none) := by
  by_cases hne : l = []
  · subst hne
    refine ⟨by simp [fingersUpFromLm], by simp, ?_, ?_, ?_, ?_, ?_, by simp⟩ <;>
      intro hmiss <;> simp [countFingersMouse, fingersUpFromLm]
  · refine ⟨?_, fun _ => ?_, ?_, ?_, ?_, ?_, ?_, fun _ h4 => ?_⟩
    · simp [fingersUpFromLm, hne]
    · simp [countFingersMouse, hne]
    · rintro (hm | hm)
      · simp [countFingersMouse, fingersUpFromLm, hne, hm]
      · cases h4 : lmLookup l 4 <;>
          simp [countFingersMouse, fingersUpFromLm, hne, hm, h4]
    · rintro (hm | hm)
      · simp [countFingersMouse, fingersUpFromLm, hne, hm]
      · cases ht : lmLookup l 8 <;>
          simp [countFingersMouse, fingersUpFromLm, hne, hm, ht]
    · rintro (hm | hm)
      · simp [countFingersMouse, fingersUpFromLm, hne, hm]
      · cases ht : lmLookup l 12 <;>
          simp [countFingersMouse, fingersUpFromLm, hne, hm, ht]
    · rintro (hm | hm)
      · simp [countFingersMouse, fingersUpFromLm, hne, hm]
      · cases ht : lmLookup l 16 <;>
          simp [countFingersMouse, fingersUpFromLm, hne, hm, ht]
    · rintro (hm | hm)
      · simp [countFingersMouse, fingersUpFromLm, hne, hm]
      · cases ht : lmLookup l 20 <;>
          simp [countFingersMouse, fingersUpFromLm, hne, hm, ht]
    · simp [countFingersMain, hne, h4]

/-- Witness for C4 amended at a concrete landmark list. -/
theorem C4_missing_id_defaults_witness :
    (fingersUpFromLm [((0 : ℤ), 5, 5)] none).getD 0 0 = 0 ∧
    countFingersMain [((0 : ℤ), 5, 5)] none = none :=
  ⟨((C4_missing_id_defaults [((0 : ℤ), 5, 5)] none).2.2.1
      (Or.inl (by decide))).2,
   (C4_missing_id_defaults [((0 : ℤ), 5, 5)] none).2.2.2.2.2.2.2
     (by decide) (by decide)⟩

/-- C10: on any landmark list containing all required ids and any
handedness, the three classifier implementations agree: main.py
countFingers returns exactly the VirtualMouse countFingers result, whose
vector is exactly the VirtualPainter fingersUpFromLm vector, of length 5. -/
theorem C10_classifier_agreement (l : List (ℤ × ℤ × ℤ)) (h : Option String)
    (hall : ∀ i, i ∈ ([3, 4, 6, 8, 10, 12, 14, 16, 18, 20] : List ℤ) →
      (lmLookup l i).isSome = true) :
    countFingersMain l h = some (countFingersMouse l h) ∧
    (countFingersMouse l h).2 = fingersUpFromLm l h ∧
    (fingersUpFromLm l h).length = 5 := by
  obtain ⟨p3, h3⟩ := Option.isSome_iff_exists.mp (hall 3 (by decide))
  obtain ⟨p4, h4⟩ := Option.isSome_iff_exists.mp (hall 4 (by decide))
  obtain ⟨p6, h6⟩ := Option.isSome_iff_exists.mp (hall 6 (by decide))
  obtain ⟨p8, h8⟩ := Option.isSome_iff_exists.mp (hall 8 (by decide))
  obtain ⟨p10, h10⟩ := Option.isSome_iff_exists.mp (hall 10 (by decide))
  obtain ⟨p12, h12⟩ := Option.isSome_iff_exists.mp (hall 12 (by decide))
  obtain ⟨p14, h14⟩ := Option.isSome_iff_exists.mp (hall 14 (by decide))
  obtain ⟨p16, h16⟩ := Option.isSome_iff_exists.mp (hall 16 (by decide))
  obtain ⟨p18, h18⟩ := Option.isSome_iff_exists.mp (hall 18 (by decide))
  obtain ⟨p20, h20⟩ := Option.isSome_iff_exists.mp (hall 20 (by decide))
  have hne : l ≠ [] := lmLookup_ne_nil h3
  refine ⟨?_, ?_, ?_⟩
  · simp [countFingersMain, countFingersMouse, hne, h3, h4, h6, h8, h10,
      h12, h14, h16, h18, h20]
    ring
  · simp [countFingersMouse, fingersUpFromLm, hne, h3, h4, h6, h8, h10,
      h12, h14, h16, h18, h20]
  · simp [fingersUpFromLm, hne, h3, h4, h6, h8, h10, h12, h14, h16, h18, h20]

/-- Witness for C10 at a concrete landmark list containing all ids. -/
theorem C10_classifier_agreement_witness :
    countFingersMain
        [(3, 2, 0), (4, 1, 0), (6, 0, 2), (8, 0, 1), (10, 0, 2), (12, 0, 1),
         (14, 0, 2), (16, 0, 3), (18, 0, 2), (20, 0, 1)] none
      = some (countFingersMouse
        [(3, 2, 0), (4, 1, 0), (6, 0, 2), (8, 0, 1), (10, 0, 2), (12, 0, 1),
         (14, 0, 2), (16, 0, 3), (18, 0, 2), (20, 0, 1)] none) :=
  (C10_classifier_agreement
    [(3, 2, 0), (4, 1, 0), (6, 0, 2), (8, 0, 1), (10, 0, 2), (12, 0, 1),
     (14, 0, 2), (16, 0, 3), (18, 0, 2), (20, 0, 1)] none (by decide)).1
